import Mathlib

/-!
Shallow embedding of `browser_use/utils/signal_handler.py`: the interrupt
coordination subsystem (SignalHandler class, module-level `_exiting` flag,
the SIGINT/SIGTERM handlers, task cancellation, the resume gate, and handler
registration/teardown).  Python side effects are made explicit: each embedded
function returns the updated state, the list of observable effects it emitted
(callback invocations, task cancellations, prints, log lines, signal-table
mutations), and an outcome (normal return, process termination via os._exit,
or a propagated exception).
-/

namespace BrowserUse

/-- Behaviour of an optional host callback slot: not registered (`None` in
Python), registered and returning normally, or registered and raising an
exception when invoked. -/
inductive CbBehavior
  | absent
  | ok
  | raises
deriving DecidableEq, Repr

/-- An asyncio task as seen by `_cancel_interruptible_tasks`: its name
(`task.get_name()`) and whether `task.done()` holds. -/
structure Task where
  name : String
  done : Bool
deriving DecidableEq, Repr

/-- The live task set of the event loop: the list of tasks returned by
`asyncio.all_tasks(self.loop)` together with the index of the task returned
by `asyncio.current_task(self.loop)`, when there is one. -/
structure TaskSet where
  tasks : List Task
  current : Option Nat
deriving DecidableEq, Repr

/-- The configuration of a `SignalHandler` instance, as set in `__init__`:
the three callback slots, `exit_on_second_int`, and
`interruptible_task_patterns`. -/
structure Config where
  pause_callback : CbBehavior
  resume_callback : CbBehavior
  custom_exit_callback : CbBehavior
  exit_on_second_int : Bool
  interruptible_task_patterns : List String
deriving DecidableEq, Repr

/-- The mutable process/loop state read and written by the handlers: the
module-level `_exiting` flag and the two attributes `ctrl_c_pressed` and
`waiting_for_input` stored on the event loop. -/
structure State where
  exiting : Bool
  ctrl_c_pressed : Bool
  waiting_for_input : Bool
deriving DecidableEq, Repr

/-- The two OS signals the module manages. -/
inductive Sig
  | sigint
  | sigterm
deriving DecidableEq, Repr

/-- A value that can sit in the OS signal-handler table. -/
inductive Handler
  | coordinatorSigint
  | coordinatorSigterm
  | windowsHandler
  | defaultIntHandler
  | other (n : Nat)
deriving DecidableEq, Repr

/-- An observable side effect emitted by the embedded functions. -/
inductive Effect
  | callExitCallback
  | callPauseCallback
  | callResumeCallback
  | cancelTask (name : String)
  | addDoneCallback (name : String)
  | printMsg (msg : String)
  | logError (msg : String)
  | logWarning (msg : String)
  | logDebug (msg : String)
  | signalSignal (sig : Sig) (h : Handler)
  | addLoopHandler (sig : Sig) (h : Handler)
  | removeLoopHandler (sig : Sig)
deriving DecidableEq, Repr

/-- How a call ends: normal return, process termination with an exit code
(`os._exit(code)`), or an exception propagating to the caller. -/
inductive Outcome
  | returned
  | terminated (code : Nat)
  | raised (e : String)
deriving DecidableEq, Repr

/-- Contiguous-sublist test on character lists (the empty list is a sublist
of everything). -/
def charsInfixOf (pat : List Char) : List Char → Bool
  | [] => pat.isEmpty
  | c :: t => pat.isPrefixOf (c :: t) || charsInfixOf pat t

/-- Python substring test `pat in hay`. -/
def strContains (hay pat : String) : Bool :=
  charsInfixOf pat.toList hay.toList

/-- The effects of `if cb: try: cb() except Exception as e: logger.log(msg)`:
nothing when the slot is empty, the bare invocation when it returns, and the
invocation followed by the log line when it raises (the exception being
caught at the call site). -/
def callbackEffects (msg : String) (call : Effect) : CbBehavior → List Effect
  | CbBehavior.absent => []
  | CbBehavior.ok => [call]
  | CbBehavior.raises => [call, Effect.logError msg]

/-- `any(pattern in task_name for pattern in patterns)`. -/
def matchesAny (patterns : List String) (name : String) : Bool :=
  patterns.any (fun p => strContains name p)

/-- `SignalHandler._cancel_interruptible_tasks`: walk `all_tasks`, cancel
every task other than the current one that is not done and whose name
contains one of the configured patterns (also attaching a done-callback that
swallows the cancellation), then cancel the current task itself under the
same name test when it is not done. -/
def cancel_interruptible_tasks (cfg : Config) (ts : TaskSet) : List Effect :=
  let others := ts.tasks.enum.flatMap (fun p =>
    let i := p.1
    let t := p.2
    if ts.current != some i && !t.done &&
        matchesAny cfg.interruptible_task_patterns t.name then
      [Effect.logDebug ("Cancelling task: " ++ t.name),
       Effect.cancelTask t.name,
       Effect.addDoneCallback t.name]
    else [])
  let cur :=
    match ts.current with
    | none => []
    | some i =>
      match ts.tasks[i]? with
      | none => []
      | some t =>
        if !t.done && matchesAny cfg.interruptible_task_patterns t.name then
          [Effect.logDebug ("Cancelling current task: " ++ t.name),
           Effect.cancelTask t.name]
        else []
  others ++ cur

/-- `SignalHandler._handle_second_ctrl_c`: if the global `_exiting` flag is
not yet set, set it and invoke the custom exit callback inside a
try/except that logs errors; then print the notice and `os._exit(0)`. -/
def handle_second_ctrl_c (cfg : Config) (s : State) :
    State × List Effect × Outcome :=
  let step :=
    if !s.exiting then
      ({ s with exiting := true },
       callbackEffects "Error in exit callback" Effect.callExitCallback
         cfg.custom_exit_callback)
    else (s, [])
  (step.1,
   step.2 ++ [Effect.printMsg "Got second Ctrl+C. Exiting immediately..."],
   Outcome.terminated 0)

/-- `SignalHandler.sigint_handler`: if `_exiting` is already set,
`os._exit(0)` at once.  On a second press (`ctrl_c_pressed` already true):
return silently when the resume gate is blocking on input, escalate via
`_handle_second_ctrl_c` when `exit_on_second_int` is set, and otherwise fall
through.  The fall-through (also the first-press path) sets
`ctrl_c_pressed`, cancels interruptible tasks, invokes the pause callback
inside a logging try/except, and prints the separator line. -/
def sigint_handler (cfg : Config) (ts : TaskSet) (s : State) :
    State × List Effect × Outcome :=
  if s.exiting then
    (s, [], Outcome.terminated 0)
  else if s.ctrl_c_pressed && s.waiting_for_input then
    (s, [], Outcome.returned)
  else if s.ctrl_c_pressed && cfg.exit_on_second_int then
    handle_second_ctrl_c cfg s
  else
    let s1 := { s with ctrl_c_pressed := true }
    let pauseEffs :=
      callbackEffects "Error in pause callback" Effect.callPauseCallback
        cfg.pause_callback
    (s1,
     cancel_interruptible_tasks cfg ts ++ pauseEffs ++
       [Effect.printMsg "----------------------------------------------------------------------"],
     Outcome.returned)

/-- `SignalHandler.sigterm_handler`: if `_exiting` is not yet set, set it,
print the notice, and invoke the custom exit callback with NO surrounding
try/except; then `os._exit(0)`.  A raising exit callback therefore
propagates and `os._exit(0)` is never reached on that path. -/
def sigterm_handler (cfg : Config) (s : State) :
    State × List Effect × Outcome :=
  if !s.exiting then
    let s1 := { s with exiting := true }
    let notice := [Effect.printMsg "SIGTERM received. Exiting immediately..."]
    match cfg.custom_exit_callback with
    | CbBehavior.absent => (s1, notice, Outcome.terminated 0)
    | CbBehavior.ok =>
        (s1, notice ++ [Effect.callExitCallback], Outcome.terminated 0)
    | CbBehavior.raises =>
        (s1, notice ++ [Effect.callExitCallback], Outcome.raised "exit callback")
  else
    (s, [], Outcome.terminated 0)

/-- How the blocking `input()` call in `wait_for_resume` ends: the operator
pressed Enter, or a Ctrl+C surfaced as `KeyboardInterrupt`. -/
inductive ReadResult
  | line
  | keyboardInterrupt
deriving DecidableEq, Repr

/-- Environment of one `wait_for_resume` call: the handler currently
installed for SIGINT (returned by `signal.getsignal`), whether installing
the default handler raises `ValueError` (caught with `pass`), the outcome of
the blocking read, and whether restoring the handler in the `finally` block
raises (caught with `pass`, which then also skips clearing the flag). -/
structure GateEnv where
  original_handler : Handler
  install_default_raises : Bool
  read : ReadResult
  restore_raises : Bool
deriving DecidableEq, Repr

/-- The `finally` block of `wait_for_resume`: restore the previous SIGINT
handler and clear `waiting_for_input`; if the restore raises, the exception
is swallowed and the flag is left set. -/
def gateFinally (env : GateEnv) (s : State) : State × List Effect :=
  if env.restore_raises then
    (s, [])
  else
    ({ s with waiting_for_input := false },
     [Effect.signalSignal Sig.sigint env.original_handler])

/-- `SignalHandler.wait_for_resume`: set `waiting_for_input`, switch SIGINT
to the default handler, print the prompt and block on `input()`.  Enter
invokes the resume callback (unguarded: a raising resume callback
propagates, after the `finally` block runs); `KeyboardInterrupt` routes into
`_handle_second_ctrl_c`, whose `os._exit(0)` skips the `finally` block. -/
def wait_for_resume (cfg : Config) (env : GateEnv) (s : State) :
    State × List Effect × Outcome :=
  let s0 := { s with waiting_for_input := true }
  let installEffs : List Effect :=
    if env.install_default_raises then []
    else [Effect.signalSignal Sig.sigint Handler.defaultIntHandler]
  let promptEff := Effect.printMsg "Press Enter to resume or Ctrl+C again to exit..."
  match env.read with
  | ReadResult.keyboardInterrupt =>
    let r := handle_second_ctrl_c cfg s0
    (r.1, installEffs ++ [promptEff] ++ r.2.1, r.2.2)
  | ReadResult.line =>
    match cfg.resume_callback with
    | CbBehavior.absent =>
      let f := gateFinally env s0
      (f.1, installEffs ++ [promptEff] ++ f.2, Outcome.returned)
    | CbBehavior.ok =>
      let f := gateFinally env s0
      (f.1, installEffs ++ [promptEff, Effect.callResumeCallback] ++ f.2,
       Outcome.returned)
    | CbBehavior.raises =>
      let f := gateFinally env s0
      (f.1, installEffs ++ [promptEff, Effect.callResumeCallback] ++ f.2,
       Outcome.raised "resume callback")

/-- `SignalHandler.reset`: clear both loop flags. -/
def reset (s : State) : State :=
  { s with ctrl_c_pressed := false, waiting_for_input := false }

/-- The registration bookkeeping of a `SignalHandler` instance:
`self.is_windows` and the recorded previous handlers (both initialised to
`None` in `__init__`). -/
structure Registrar where
  is_windows : Bool
  original_sigint_handler : Option Handler
  original_sigterm_handler : Option Handler
deriving DecidableEq, Repr

/-- Environment of one `register` call: the previous handler returned by
`signal.signal` on Windows, and whether each installation primitive
raises. -/
structure RegisterEnv where
  prev_sigint : Handler
  win_signal_raises : Bool
  add_sigint_raises : Bool
  add_sigterm_raises : Bool
deriving DecidableEq, Repr

/-- `SignalHandler.register`: on Windows install the simplified
forced-exit-only handler via `signal.signal` and record the previous one;
elsewhere install the coordinator handlers via
`loop.add_signal_handler` (which returns `None`, so the recorded originals
are `None`).  The whole body sits in `try: ... except Exception: pass`, so a
failing installation is swallowed silently and nothing further is
installed. -/
def register (r : Registrar) (env : RegisterEnv) :
    Registrar × List Effect × Outcome :=
  if r.is_windows then
    if env.win_signal_raises then
      (r, [], Outcome.returned)
    else
      ({ r with original_sigint_handler := some env.prev_sigint },
       [Effect.signalSignal Sig.sigint Handler.windowsHandler],
       Outcome.returned)
  else
    if env.add_sigint_raises then
      (r, [], Outcome.returned)
    else
      let r1 := { r with original_sigint_handler := none }
      let e1 := [Effect.addLoopHandler Sig.sigint Handler.coordinatorSigint]
      if env.add_sigterm_raises then
        (r1, e1, Outcome.returned)
      else
        ({ r1 with original_sigterm_handler := none },
         e1 ++ [Effect.addLoopHandler Sig.sigterm Handler.coordinatorSigterm],
         Outcome.returned)

/-- Environment of one `unregister` call: whether each teardown primitive
raises.  The first raising step jumps to the `except` clause, which logs a
warning and returns. -/
structure UnregisterEnv where
  remove_sigint_raises : Bool
  remove_sigterm_raises : Bool
  restore_sigint_raises : Bool
  restore_sigterm_raises : Bool
deriving DecidableEq, Repr

/-- The warning logged by `unregister` when teardown fails. -/
def unregisterWarn : Effect :=
  Effect.logWarning "Error while unregistering signal handlers"

/-- `SignalHandler.unregister`: on Windows restore the recorded SIGINT
handler when one was recorded; elsewhere remove both loop handlers and then
restore each recorded original via `signal.signal`.  The whole body sits in
a try/except that logs a warning, so no exception escapes. -/
def unregister (r : Registrar) (env : UnregisterEnv) :
    List Effect × Outcome :=
  if r.is_windows then
    match r.original_sigint_handler with
    | none => ([], Outcome.returned)
    | some h =>
      if env.restore_sigint_raises then ([unregisterWarn], Outcome.returned)
      else ([Effect.signalSignal Sig.sigint h], Outcome.returned)
  else
    if env.remove_sigint_raises then ([unregisterWarn], Outcome.returned)
    else
      let e1 := [Effect.removeLoopHandler Sig.sigint]
      if env.remove_sigterm_raises then
        (e1 ++ [unregisterWarn], Outcome.returned)
      else
        let e2 := e1 ++ [Effect.removeLoopHandler Sig.sigterm]
        match r.original_sigint_handler with
        | some h =>
          if env.restore_sigint_raises then
            (e2 ++ [unregisterWarn], Outcome.returned)
          else
            let e3 := e2 ++ [Effect.signalSignal Sig.sigint h]
            match r.original_sigterm_handler with
            | some h2 =>
              if env.restore_sigterm_raises then
                (e3 ++ [unregisterWarn], Outcome.returned)
              else
                (e3 ++ [Effect.signalSignal Sig.sigterm h2], Outcome.returned)
            | none => (e3, Outcome.returned)
        | none =>
          match r.original_sigterm_handler with
          | some h2 =>
            if env.restore_sigterm_raises then
              (e2 ++ [unregisterWarn], Outcome.returned)
            else
              (e2 ++ [Effect.signalSignal Sig.sigterm h2], Outcome.returned)
          | none => (e2, Outcome.returned)

/-- One event observed by the process: a SIGINT handled by the coordinator
(with the task set live at that moment), a SIGTERM, a host call to
`wait_for_resume` (whose environment records whether a SIGINT arrives during
the blocking read and surfaces as the `KeyboardInterrupt` of `input()`), or
a host call to `reset`. -/
inductive Delivery
  | sigint (ts : TaskSet)
  | sigterm
  | gate (env : GateEnv)
  | hostReset
deriving Repr

/-- Execute one event against the current process state. -/
def deliver (cfg : Config) (s : State) : Delivery → State × List Effect × Outcome
  | Delivery.sigint ts => sigint_handler cfg ts s
  | Delivery.sigterm => sigterm_handler cfg s
  | Delivery.gate env => wait_for_resume cfg env s
  | Delivery.hostReset => (reset s, [], Outcome.returned)

/-- Run a whole sequence of events, collecting every emitted effect; a
terminated process observes no further events. -/
def runDeliveries (cfg : Config) (s : State) : List Delivery → List Effect
  | [] => []
  | d :: ds =>
    match (deliver cfg s d).2.2 with
    | Outcome.terminated _ => (deliver cfg s d).2.1
    | _ => (deliver cfg s d).2.1 ++ runDeliveries cfg (deliver cfg s d).1 ds

/-- Number of exit-callback invocations in an effect trace. -/
def countExitCalls (effs : List Effect) : Nat :=
  effs.count Effect.callExitCallback

/-- How many exit-callback invocations the guard still permits from a given
state: one before `_exiting` is set, none afterwards. -/
def exitBudget (s : State) : Nat :=
  if s.exiting then 0 else 1

end BrowserUse

namespace BrowserUse

/-! ## Shared lemmas about the embedded operations -/

theorem cancelTask_mem_cancel_iff (cfg : Config) (ts : TaskSet) (name : String) :
    Effect.cancelTask name ∈ cancel_interruptible_tasks cfg ts ↔
      ∃ t ∈ ts.tasks, t.name = name ∧ t.done = false ∧
        matchesAny cfg.interruptible_task_patterns t.name = true := by
  unfold cancel_interruptible_tasks
  simp only [List.mem_append, List.mem_flatMap]
  constructor
  · rintro (⟨⟨i, t⟩, hp, hmem⟩ | hcur)
    · have ht : t ∈ ts.tasks :=
        List.getElem?_mem (List.mk_mem_enum_iff_getElem?.mp hp)
      dsimp only at hmem
      split at hmem
      · rename_i hcond
        simp only [Bool.and_eq_true, bne_iff_ne, Bool.not_eq_true'] at hcond
        simp only [List.mem_cons, List.not_mem_nil, or_false] at hmem
        rcases hmem with h1 | h1 | h1 <;> first
          | (cases h1; exact ⟨t, ht, rfl, hcond.1.2, hcond.2⟩)
          | cases h1
      · simp at hmem
    · rcases hc : ts.current with _ | i
      · rw [hc] at hcur
        dsimp only at hcur
        cases hcur
      · rw [hc] at hcur
        dsimp only at hcur
        rcases hg : ts.tasks[i]? with _ | t
        · rw [hg] at hcur
          dsimp only at hcur
          cases hcur
        · rw [hg] at hcur
          dsimp only at hcur
          split at hcur
          · rename_i hcond
            simp only [Bool.and_eq_true, Bool.not_eq_true'] at hcond
            simp only [List.mem_cons, List.not_mem_nil, or_false] at hcur
            rcases hcur with h1 | h1 <;> first
              | (cases h1; exact ⟨t, List.getElem?_mem hg, rfl, hcond.1, hcond.2⟩)
              | cases h1
          · cases hcur
  · rintro ⟨t, ht, rfl, hdone, hmatch⟩
    obtain ⟨i, hi⟩ := List.mem_iff_getElem?.mp ht
    by_cases hci : ts.current = some i
    · right
      rw [hci]
      dsimp only
      rw [hi]
      simp only [hdone, hmatch, Bool.not_false, Bool.and_self, if_true]
      simp
    · left
      refine ⟨(i, t), List.mk_mem_enum_iff_getElem?.mpr hi, ?_⟩
      dsimp only
      have : (ts.current != some i) = true := by
        simp [bne_iff_ne, hci]
      simp only [this, hdone, hmatch, Bool.not_false, Bool.and_self, Bool.true_and, if_true]
      simp

theorem callExit_not_mem_cancel (cfg : Config) (ts : TaskSet) :
    Effect.callExitCallback ∉ cancel_interruptible_tasks cfg ts := by
  intro h
  unfold cancel_interruptible_tasks at h
  simp only [List.mem_append, List.mem_flatMap] at h
  rcases h with ⟨⟨i, t⟩, hp, hmem⟩ | hcur
  · dsimp only at hmem
    split at hmem <;> simp at hmem
  · rcases hc : ts.current with _ | i
    · rw [hc] at hcur
      dsimp only at hcur
      cases hcur
    · rw [hc] at hcur
      dsimp only at hcur
      rcases hg : ts.tasks[i]? with _ | t
      · rw [hg] at hcur
        dsimp only at hcur
        cases hcur
      · rw [hg] at hcur
        dsimp only at hcur
        split at hcur <;> simp at hcur

theorem countExitCalls_append (a b : List Effect) :
    countExitCalls (a ++ b) = countExitCalls a + countExitCalls b :=
  List.count_append Effect.callExitCallback a b

theorem countExitCalls_cancel (cfg : Config) (ts : TaskSet) :
    countExitCalls (cancel_interruptible_tasks cfg ts) = 0 :=
  List.count_eq_zero.mpr (callExit_not_mem_cancel cfg ts)

theorem countExitCalls_exitEffects (msg : String) (b : CbBehavior) :
    countExitCalls (callbackEffects msg Effect.callExitCallback b) =
      if b = CbBehavior.absent then 0 else 1 := by
  cases b <;> simp [callbackEffects, countExitCalls]

theorem countExitCalls_pauseEffects (msg : String) (b : CbBehavior) :
    countExitCalls (callbackEffects msg Effect.callPauseCallback b) = 0 := by
  cases b <;> simp [callbackEffects, countExitCalls]

/-- Branch equation: the first-interrupt (fall-through) path of
`sigint_handler`. -/
theorem sigint_handler_first_eq (cfg : Config) (ts : TaskSet) (s : State)
    (hex : s.exiting = false) (hcc : s.ctrl_c_pressed = false) :
    sigint_handler cfg ts s =
      ({ s with ctrl_c_pressed := true },
       cancel_interruptible_tasks cfg ts ++
         callbackEffects "Error in pause callback" Effect.callPauseCallback
           cfg.pause_callback ++
         [Effect.printMsg "----------------------------------------------------------------------"],
       Outcome.returned) := by
  simp [sigint_handler, hex, hcc]

/-! ## Concrete fixtures used by witnesses and counterexamples -/

def scenarioTasks : TaskSet :=
  ⟨[⟨"step-3", false⟩, ⟨"multi_act-7", false⟩, ⟨"cleanup-1", false⟩], none⟩

def cfgScenario : Config :=
  ⟨CbBehavior.ok, CbBehavior.ok, CbBehavior.ok, true, ["step", "multi_act"]⟩

def cfgNoExitOnSecond : Config :=
  ⟨CbBehavior.ok, CbBehavior.ok, CbBehavior.ok, false, ["step", "multi_act"]⟩

def cfgRaisingExit : Config :=
  ⟨CbBehavior.ok, CbBehavior.ok, CbBehavior.raises, true, ["step", "multi_act"]⟩

def cfgRaisingResume : Config :=
  ⟨CbBehavior.ok, CbBehavior.raises, CbBehavior.ok, true, ["step", "multi_act"]⟩

def idleState : State := ⟨false, false, false⟩

def pausedState : State := ⟨false, true, false⟩

def exitingState : State := ⟨true, false, false⟩

def gateEnvLine : GateEnv := ⟨Handler.other 0, false, ReadResult.line, false⟩

def gateEnvInterrupt : GateEnv :=
  ⟨Handler.other 0, false, ReadResult.keyboardInterrupt, false⟩

/-! ## Claim theorems -/

/-- C10: if the process-wide `_exiting` flag is already set when
`sigint_handler` runs, it terminates the process immediately with exit code
0: the state is returned untouched (neither `ctrl_c_pressed` nor
`waiting_for_input` is mutated) and no effect is emitted — no callback, no
task cancellation, no print. -/
theorem sigint_when_already_exiting (cfg : Config) (ts : TaskSet) (s : State)
    (h : s.exiting = true) :
    sigint_handler cfg ts s = (s, [], Outcome.terminated 0) := by
  simp [sigint_handler, h]

theorem sigint_when_already_exiting_witness :
    exitingState.exiting = true ∧
    sigint_handler cfgScenario scenarioTasks exitingState =
      (exitingState, [], Outcome.terminated 0) :=
  ⟨rfl, sigint_when_already_exiting cfgScenario scenarioTasks exitingState rfl⟩

/-- C2: the first SIGINT received while idle (`ctrl_c_pressed` not yet set,
not exiting) transitions to the paused state (`ctrl_c_pressed` becomes
true), returns normally, and cancels exactly the not-yet-done tasks whose
name contains at least one configured pattern as a substring; a task whose
name matches no pattern is never cancelled. -/
theorem first_sigint_pauses_and_cancels_exactly_matching
    (cfg : Config) (ts : TaskSet) (s : State)
    (hex : s.exiting = false) (hcc : s.ctrl_c_pressed = false) :
    (sigint_handler cfg ts s).1 = { s with ctrl_c_pressed := true } ∧
    (sigint_handler cfg ts s).2.2 = Outcome.returned ∧
    ∀ name, (Effect.cancelTask name ∈ (sigint_handler cfg ts s).2.1 ↔
      ∃ t ∈ ts.tasks, t.name = name ∧ t.done = false ∧
        matchesAny cfg.interruptible_task_patterns t.name = true) := by
  rw [sigint_handler_first_eq cfg ts s hex hcc]
  refine ⟨rfl, rfl, fun name => ?_⟩
  rw [← cancelTask_mem_cancel_iff cfg ts name]
  simp only [List.mem_append, List.mem_cons, List.not_mem_nil, or_false]
  constructor
  · rintro ((h | h) | h)
    · exact h
    · exfalso
      cases hb : cfg.pause_callback <;> rw [hb] at h <;>
        simp [callbackEffects] at h
    · exact absurd h (by simp)
  · intro h
    exact Or.inl (Or.inl h)

theorem first_sigint_witness :
    idleState.exiting = false ∧ idleState.ctrl_c_pressed = false ∧
    ((sigint_handler cfgScenario scenarioTasks idleState).1 =
        { idleState with ctrl_c_pressed := true } ∧
      (sigint_handler cfgScenario scenarioTasks idleState).2.2 = Outcome.returned ∧
      ∀ name,
        (Effect.cancelTask name ∈
            (sigint_handler cfgScenario scenarioTasks idleState).2.1 ↔
          ∃ t ∈ scenarioTasks.tasks, t.name = name ∧ t.done = false ∧
            matchesAny cfgScenario.interruptible_task_patterns t.name = true)) :=
  ⟨rfl, rfl,
    first_sigint_pauses_and_cancels_exactly_matching cfgScenario scenarioTasks
      idleState rfl rfl⟩

theorem cancelTask_mem_fallthrough (cfg : Config) (ts : TaskSet)
    (name msg p : String) (b : CbBehavior) :
    Effect.cancelTask name ∈
        (cancel_interruptible_tasks cfg ts ++
          callbackEffects msg Effect.callPauseCallback b ++
          [Effect.printMsg p]) ↔
      Effect.cancelTask name ∈ cancel_interruptible_tasks cfg ts := by
  simp only [List.mem_append, List.mem_cons, List.not_mem_nil, or_false]
  constructor
  · rintro ((h | h) | h)
    · exact h
    · exfalso
      cases b <;> simp [callbackEffects] at h
    · exact absurd h (by simp)
  · exact fun h => Or.inl (Or.inl h)

/-- The state projected out of a record update is the state itself when the
field already has the written value. -/
theorem set_ctrl_c_self (s : State) (hcc : s.ctrl_c_pressed = true) :
    ({ s with ctrl_c_pressed := true } : State) = s := by
  cases s
  simp_all

/-- Branch equation: `sigint_handler` with the resume gate not blocking and
`exit_on_second_int` disabled falls through to the first-interrupt path,
whatever `ctrl_c_pressed` holds. -/
theorem sigint_handler_optout_eq (cfg : Config) (ts : TaskSet) (s : State)
    (hex : s.exiting = false) (hw : s.waiting_for_input = false)
    (hopt : cfg.exit_on_second_int = false) :
    sigint_handler cfg ts s =
      ({ s with ctrl_c_pressed := true },
       cancel_interruptible_tasks cfg ts ++
         callbackEffects "Error in pause callback" Effect.callPauseCallback
           cfg.pause_callback ++
         [Effect.printMsg "----------------------------------------------------------------------"],
       Outcome.returned) := by
  simp [sigint_handler, hex, hw, hopt]

/-- C3 counterexample: a second SIGINT (state paused, not waiting for
input) with `exit_on_second_int = False` is NOT a no-op: the handler falls
through to the first-interrupt path, re-invoking the pause callback,
re-cancelling the matching task, and printing the separator. -/
theorem second_sigint_optout_not_noop :
    Effect.callPauseCallback ∈
      (sigint_handler cfgNoExitOnSecond scenarioTasks pausedState).2.1 ∧
    Effect.cancelTask "step-3" ∈
      (sigint_handler cfgNoExitOnSecond scenarioTasks pausedState).2.1 ∧
    (sigint_handler cfgNoExitOnSecond scenarioTasks pausedState).2.1 ≠ [] := by
  decide

/-- C3 (amended): on a SIGINT received while paused (`ctrl_c_pressed`
true) and not waiting for input: with `exit_on_second_int` true the handler
runs the exit path of `_handle_second_ctrl_c` and terminates immediately;
with `exit_on_second_int` false it is not a no-op but re-runs the
first-interrupt path — the flags are left unchanged, yet it reports the
separator line, re-invokes the pause callback when registered, and
re-cancels exactly the unfinished pattern-matching tasks. -/
theorem second_sigint_behavior (cfg : Config) (ts : TaskSet) (s : State)
    (hex : s.exiting = false) (hcc : s.ctrl_c_pressed = true)
    (hw : s.waiting_for_input = false) :
    (cfg.exit_on_second_int = true →
      sigint_handler cfg ts s = handle_second_ctrl_c cfg s ∧
      (sigint_handler cfg ts s).2.2 = Outcome.terminated 0) ∧
    (cfg.exit_on_second_int = false →
      (sigint_handler cfg ts s).1 = s ∧
      (sigint_handler cfg ts s).2.2 = Outcome.returned ∧
      Effect.printMsg "----------------------------------------------------------------------" ∈
        (sigint_handler cfg ts s).2.1 ∧
      (cfg.pause_callback ≠ CbBehavior.absent →
        Effect.callPauseCallback ∈ (sigint_handler cfg ts s).2.1) ∧
      ∀ name, (Effect.cancelTask name ∈ (sigint_handler cfg ts s).2.1 ↔
        ∃ t ∈ ts.tasks, t.name = name ∧ t.done = false ∧
          matchesAny cfg.interruptible_task_patterns t.name = true)) := by
  constructor
  · intro ht
    have heq : sigint_handler cfg ts s = handle_second_ctrl_c cfg s := by
      simp [sigint_handler, hex, hcc, hw, ht]
    refine ⟨heq, ?_⟩
    rw [heq]
    rfl
  · intro hf
    rw [sigint_handler_optout_eq cfg ts s hex hw hf]
    refine ⟨set_ctrl_c_self s hcc, rfl, ?_, ?_, ?_⟩
    · simp
    · intro hp
      simp only [List.mem_append]
      left
      right
      cases hb : cfg.pause_callback
      · exact absurd hb hp
      · simp [callbackEffects]
      · simp [callbackEffects]
    · intro name
      rw [cancelTask_mem_fallthrough]
      exact cancelTask_mem_cancel_iff cfg ts name

theorem second_sigint_behavior_witness :
    pausedState.exiting = false ∧ pausedState.ctrl_c_pressed = true ∧
    pausedState.waiting_for_input = false ∧
    ((cfgScenario.exit_on_second_int = true →
        sigint_handler cfgScenario scenarioTasks pausedState =
          handle_second_ctrl_c cfgScenario pausedState ∧
        (sigint_handler cfgScenario scenarioTasks pausedState).2.2 =
          Outcome.terminated 0) ∧
      (cfgScenario.exit_on_second_int = false →
        (sigint_handler cfgScenario scenarioTasks pausedState).1 = pausedState ∧
        (sigint_handler cfgScenario scenarioTasks pausedState).2.2 = Outcome.returned ∧
        Effect.printMsg "----------------------------------------------------------------------" ∈
          (sigint_handler cfgScenario scenarioTasks pausedState).2.1 ∧
        (cfgScenario.pause_callback ≠ CbBehavior.absent →
          Effect.callPauseCallback ∈
            (sigint_handler cfgScenario scenarioTasks pausedState).2.1) ∧
        ∀ name,
          (Effect.cancelTask name ∈
              (sigint_handler cfgScenario scenarioTasks pausedState).2.1 ↔
            ∃ t ∈ scenarioTasks.tasks, t.name = name ∧ t.done = false ∧
              matchesAny cfgScenario.interruptible_task_patterns t.name = true))) :=
  ⟨rfl, rfl, rfl,
    second_sigint_behavior cfgScenario scenarioTasks pausedState rfl rfl rfl⟩

/-- C4 (code evaluated at the failing input): with `_exiting` unset and a
raising exit callback, `sigterm_handler` lets the exception propagate — the
call at the end of the handler body is not wrapped in try/except — so
`os._exit(0)` is never reached and the process is not terminated by the
handler, contradicting the handler docstring (and the claim) that a SIGTERM
always terminates with code 0 even if the callback raises. -/
theorem sigterm_raising_exit_callback_does_not_terminate :
    (sigterm_handler cfgRaisingExit idleState).2.2 =
      Outcome.raised "exit callback" ∧
    ∀ code, (sigterm_handler cfgRaisingExit idleState).2.2 ≠
      Outcome.terminated code :=
  ⟨rfl, fun _ h => Outcome.noConfusion h⟩

/-- C6 counterexample: a resume callback that raises a generic exception
inside `wait_for_resume` propagates it to the caller — only
`KeyboardInterrupt` is caught around the blocking read, and no error is
logged — refuting the claim that every host-callback exception is caught at
the call site and never re-raised. -/
theorem resume_callback_exception_propagates :
    (wait_for_resume cfgRaisingResume gateEnvLine pausedState).2.2 =
      Outcome.raised "resume callback" := rfl

/-- C6 (amended): the pause callback in `sigint_handler` and the exit
callback in `_handle_second_ctrl_c` are invoked inside a try/except that
logs the error, so those two functions never let a host-callback exception
escape; but the exit callback in `sigterm_handler` and the resume callback
in `wait_for_resume` are unguarded, and their exceptions propagate to the
caller. -/
theorem callback_exception_containment (cfg : Config) (ts : TaskSet)
    (s : State) (env : GateEnv) :
    (∀ e, (sigint_handler cfg ts s).2.2 ≠ Outcome.raised e) ∧
    (∀ e, (handle_second_ctrl_c cfg s).2.2 ≠ Outcome.raised e) ∧
    (cfg.pause_callback = CbBehavior.raises → s.exiting = false →
      s.ctrl_c_pressed = false →
      Effect.logError "Error in pause callback" ∈ (sigint_handler cfg ts s).2.1) ∧
    (cfg.custom_exit_callback = CbBehavior.raises → s.exiting = false →
      Effect.logError "Error in exit callback" ∈
        (handle_second_ctrl_c cfg s).2.1) ∧
    (cfg.custom_exit_callback = CbBehavior.raises → s.exiting = false →
      (sigterm_handler cfg s).2.2 = Outcome.raised "exit callback") ∧
    (cfg.resume_callback = CbBehavior.raises → env.read = ReadResult.line →
      (wait_for_resume cfg env s).2.2 = Outcome.raised "resume callback") := by
  refine ⟨?_, ?_, ?_, ?_, ?_, ?_⟩
  · intro e h
    unfold sigint_handler at h
    split at h
    · exact Outcome.noConfusion h
    · split at h
      · exact Outcome.noConfusion h
      · split at h <;> exact Outcome.noConfusion h
  · intro e h
    exact Outcome.noConfusion h
  · intro hp hex hcc
    rw [sigint_handler_first_eq cfg ts s hex hcc]
    simp [callbackEffects, hp]
  · intro hcb hex
    simp [handle_second_ctrl_c, hex, hcb, callbackEffects]
  · intro hcb hex
    simp [sigterm_handler, hex, hcb]
  · intro hrc hread
    simp [wait_for_resume, hread, hrc]

def registrarPosix : Registrar := ⟨false, none, none⟩

def regEnvAddSigintFails : RegisterEnv := ⟨Handler.other 0, false, true, false⟩

/-- C9 counterexample: on a non-Windows platform where installing the
SIGINT loop handler raises, `register` swallows the exception silently and
installs nothing at all — no simplified forced-exit handler, no log line —
refuting the claimed degradation to the forced-exit-only handler path. -/
theorem register_failure_installs_nothing :
    register registrarPosix regEnvAddSigintFails =
      (registrarPosix, [], Outcome.returned) := rfl

/-- C9 (amended): `register` never propagates an installation failure, but
the failure is swallowed silently rather than logged or degraded: when the
first installation primitive on a non-Windows platform raises, no effect at
all is emitted, and the simplified forced-exit handler is only ever
installed when the platform is Windows (an upfront platform choice, not an
exception fallback). -/
theorem register_failure_swallowed (r : Registrar) (env : RegisterEnv) :
    (register r env).2.2 = Outcome.returned ∧
    (r.is_windows = false → env.add_sigint_raises = true →
      (register r env).2.1 = [] ∧ (register r env).1 = r) ∧
    (Effect.signalSignal Sig.sigint Handler.windowsHandler ∈ (register r env).2.1 →
      r.is_windows = true) := by
  rcases r with ⟨w, osi, ost⟩
  cases w
  · cases h1 : env.add_sigint_raises
    · cases h2 : env.add_sigterm_raises <;> simp [register, h1, h2]
    · simp [register, h1]
  · cases h3 : env.win_signal_raises <;> simp [register, h3]

/-- C7 counterexample: after `wait_for_resume` returns via affirmative
input, `ctrl_c_pressed` is still set (only `reset` clears it), so with the
default configuration the next SIGINT takes the second-interrupt exit path
and terminates the process instead of being treated as a first
interrupt. -/
theorem resume_without_reset_keeps_second_interrupt_armed :
    (wait_for_resume cfgScenario gateEnvLine pausedState).1.ctrl_c_pressed = true ∧
    (sigint_handler cfgScenario scenarioTasks
        (wait_for_resume cfgScenario gateEnvLine pausedState).1).2.2 =
      Outcome.terminated 0 := by
  decide

/-- C7 (amended): when `wait_for_resume` returns via affirmative operator
input (the read completes and the resume callback returns), the resume
callback has been invoked, the previously-installed SIGINT handler has been
restored, `waiting_for_input` is cleared and the call returns normally —
but `ctrl_c_pressed` is left unchanged, so the interrupt state returns to
idle only once the host additionally calls `reset`; after `reset`, a
subsequent SIGINT is treated as a first interrupt (pause path, normal
return) rather than a second interrupt. -/
theorem resume_then_reset_returns_to_idle (cfg : Config) (env : GateEnv)
    (s : State) (hread : env.read = ReadResult.line)
    (hrc : cfg.resume_callback = CbBehavior.ok)
    (hrest : env.restore_raises = false) :
    Effect.callResumeCallback ∈ (wait_for_resume cfg env s).2.1 ∧
    Effect.signalSignal Sig.sigint env.original_handler ∈
      (wait_for_resume cfg env s).2.1 ∧
    (wait_for_resume cfg env s).1.waiting_for_input = false ∧
    (wait_for_resume cfg env s).2.2 = Outcome.returned ∧
    (wait_for_resume cfg env s).1.ctrl_c_pressed = s.ctrl_c_pressed ∧
    (s.exiting = false → ∀ ts,
      (sigint_handler cfg ts (reset (wait_for_resume cfg env s).1)).2.2 =
        Outcome.returned ∧
      (sigint_handler cfg ts (reset (wait_for_resume cfg env s).1)).1.ctrl_c_pressed =
        true) := by
  have hlast : s.exiting = false → ∀ ts,
      (sigint_handler cfg ts (reset (wait_for_resume cfg env s).1)).2.2 =
        Outcome.returned ∧
      (sigint_handler cfg ts (reset (wait_for_resume cfg env s).1)).1.ctrl_c_pressed =
        true := by
    intro hex ts
    have h1 : (reset (wait_for_resume cfg env s).1).exiting = false := by
      cases hid : env.install_default_raises <;>
        simp [reset, wait_for_resume, hread, hrc, gateFinally, hrest, hid, hex]
    have h2 : (reset (wait_for_resume cfg env s).1).ctrl_c_pressed = false := by
      simp [reset]
    rw [sigint_handler_first_eq _ _ _ h1 h2]
    exact ⟨rfl, rfl⟩
  refine ⟨?_, ?_, ?_, ?_, ?_, hlast⟩ <;>
    cases hid : env.install_default_raises <;>
    simp [wait_for_resume, hread, hrc, gateFinally, hrest, hid]

theorem resume_then_reset_witness :
    gateEnvLine.read = ReadResult.line ∧
    cfgScenario.resume_callback = CbBehavior.ok ∧
    gateEnvLine.restore_raises = false ∧
    (Effect.callResumeCallback ∈
        (wait_for_resume cfgScenario gateEnvLine pausedState).2.1 ∧
      Effect.signalSignal Sig.sigint gateEnvLine.original_handler ∈
        (wait_for_resume cfgScenario gateEnvLine pausedState).2.1 ∧
      (wait_for_resume cfgScenario gateEnvLine pausedState).1.waiting_for_input =
        false ∧
      (wait_for_resume cfgScenario gateEnvLine pausedState).2.2 =
        Outcome.returned ∧
      (wait_for_resume cfgScenario gateEnvLine pausedState).1.ctrl_c_pressed =
        pausedState.ctrl_c_pressed ∧
      (pausedState.exiting = false → ∀ ts,
        (sigint_handler cfgScenario ts
            (reset (wait_for_resume cfgScenario gateEnvLine pausedState).1)).2.2 =
          Outcome.returned ∧
        (sigint_handler cfgScenario ts
            (reset (wait_for_resume cfgScenario gateEnvLine pausedState).1)).1.ctrl_c_pressed =
          true)) :=
  ⟨rfl, rfl, rfl,
    resume_then_reset_returns_to_idle cfgScenario gateEnvLine pausedState rfl rfl rfl⟩

/-- C8: `unregister` never raises, whatever the prior history — every
teardown failure is caught (logging a warning) and the call returns
normally — and it restores a handler via `signal.signal` only for a signal
whose pre-registration handler was recorded; in particular when `register`
was never performed (both recorded originals still `None` from `__init__`),
no handler restore is emitted at all. -/
theorem unregister_never_raises_and_restores_only_recorded
    (r : Registrar) (env : UnregisterEnv) :
    (unregister r env).2 = Outcome.returned ∧
    (∀ h, Effect.signalSignal Sig.sigint h ∈ (unregister r env).1 →
      r.original_sigint_handler = some h) ∧
    (∀ h, Effect.signalSignal Sig.sigterm h ∈ (unregister r env).1 →
      r.original_sigterm_handler = some h) := by
  refine ⟨?_, fun h hmem => ?_, fun h hmem => ?_⟩
  · unfold unregister
    repeat' split
    all_goals rfl
  · unfold unregister at hmem
    repeat' split at hmem
    all_goals simp_all [unregisterWarn]
  · unfold unregister at hmem
    repeat' split at hmem
    all_goals simp_all [unregisterWarn]

theorem countExitCalls_nil : countExitCalls [] = 0 := rfl

theorem countExitCalls_cons (e : Effect) (l : List Effect) :
    countExitCalls (e :: l) =
      countExitCalls l + (if Effect.callExitCallback = e then 1 else 0) := by
  simp only [countExitCalls, List.count_cons, beq_iff_eq]
  split <;> split <;> simp_all

/-- Branch equation: `wait_for_resume` when the blocking read is interrupted
by a second Ctrl+C while the process is not already exiting. -/
theorem wait_for_resume_interrupt_eq (cfg : Config) (env : GateEnv) (s : State)
    (hread : env.read = ReadResult.keyboardInterrupt) (hex : s.exiting = false) :
    wait_for_resume cfg env s =
      ({ s with waiting_for_input := true, exiting := true },
       (if env.install_default_raises then []
         else [Effect.signalSignal Sig.sigint Handler.defaultIntHandler]) ++
         [Effect.printMsg "Press Enter to resume or Ctrl+C again to exit..."] ++
         (callbackEffects "Error in exit callback" Effect.callExitCallback
             cfg.custom_exit_callback ++
          [Effect.printMsg "Got second Ctrl+C. Exiting immediately..."]),
       Outcome.terminated 0) := by
  simp [wait_for_resume, hread, handle_second_ctrl_c, hex]

/-- C5: while the resume gate is blocked on the operator read, (a) the
coordinator's `sigint_handler` ignores a SIGINT delivered in the
waiting-for-input state — no effect, no state change, normal return; (b) a
second Ctrl+C arriving during the read is observed once, as the
`KeyboardInterrupt` of the read, and — the process not already exiting, an
exit callback registered — leads to exactly one exit-callback invocation
before terminating with code 0; (c) on every path on which
`wait_for_resume` itself exits (returns or raises, rather than the process
terminating), the `finally`-style cleanup has restored the
previously-installed SIGINT handler and cleared `waiting_for_input`
(granted a restore that does not itself raise). -/
theorem sigint_during_wait_ignored_and_exit_once (cfg : Config) (env : GateEnv)
    (s : State) (hrest : env.restore_raises = false) :
    (∀ ts s2, s2.exiting = false → s2.ctrl_c_pressed = true →
      s2.waiting_for_input = true →
      sigint_handler cfg ts s2 = (s2, [], Outcome.returned)) ∧
    (env.read = ReadResult.keyboardInterrupt → s.exiting = false →
      cfg.custom_exit_callback ≠ CbBehavior.absent →
      countExitCalls (wait_for_resume cfg env s).2.1 = 1 ∧
      (wait_for_resume cfg env s).2.2 = Outcome.terminated 0) ∧
    ((∀ code, (wait_for_resume cfg env s).2.2 ≠ Outcome.terminated code) →
      (wait_for_resume cfg env s).1.waiting_for_input = false ∧
      Effect.signalSignal Sig.sigint env.original_handler ∈
        (wait_for_resume cfg env s).2.1) := by
  refine ⟨?_, ?_, ?_⟩
  · intro ts s2 h1 h2 h3
    simp [sigint_handler, h1, h2, h3]
  · intro hread hex hcb
    rw [wait_for_resume_interrupt_eq cfg env s hread hex]
    refine ⟨?_, rfl⟩
    rw [countExitCalls_append, countExitCalls_append, countExitCalls_append,
      countExitCalls_exitEffects]
    have h0 : countExitCalls
        [Effect.printMsg "Press Enter to resume or Ctrl+C again to exit..."] = 0 := rfl
    have h1 : countExitCalls
        [Effect.printMsg "Got second Ctrl+C. Exiting immediately..."] = 0 := rfl
    have h2 : countExitCalls (if env.install_default_raises then []
        else [Effect.signalSignal Sig.sigint Handler.defaultIntHandler]) = 0 := by
      cases hid : env.install_default_raises <;> rfl
    rw [h0, h1, h2]
    cases hcbv : cfg.custom_exit_callback
    · exact absurd hcbv hcb
    · simp
    · simp
  · intro hterm
    rcases hread : env.read with _ | _
    · rcases hrc : cfg.resume_callback with _ | _ | _ <;>
        cases hid : env.install_default_raises <;>
          simp [wait_for_resume, hread, hrc, gateFinally, hrest, hid]
    · exfalso
      apply hterm 0
      simp [wait_for_resume, hread, handle_second_ctrl_c]

theorem sigint_during_wait_witness :
    gateEnvInterrupt.restore_raises = false ∧
    ((∀ ts s2, s2.exiting = false → s2.ctrl_c_pressed = true →
        s2.waiting_for_input = true →
        sigint_handler cfgScenario ts s2 = (s2, [], Outcome.returned)) ∧
      (gateEnvInterrupt.read = ReadResult.keyboardInterrupt →
        pausedState.exiting = false →
        cfgScenario.custom_exit_callback ≠ CbBehavior.absent →
        countExitCalls
            (wait_for_resume cfgScenario gateEnvInterrupt pausedState).2.1 = 1 ∧
        (wait_for_resume cfgScenario gateEnvInterrupt pausedState).2.2 =
          Outcome.terminated 0) ∧
      ((∀ code,
          (wait_for_resume cfgScenario gateEnvInterrupt pausedState).2.2 ≠
            Outcome.terminated code) →
        (wait_for_resume cfgScenario gateEnvInterrupt pausedState).1.waiting_for_input =
          false ∧
        Effect.signalSignal Sig.sigint gateEnvInterrupt.original_handler ∈
          (wait_for_resume cfgScenario gateEnvInterrupt pausedState).2.1)) :=
  ⟨rfl,
    sigint_during_wait_ignored_and_exit_once cfgScenario gateEnvInterrupt
      pausedState rfl⟩

/-- One event emits at most the remaining exit budget of exit-callback
invocations; an event that does not terminate the process passes the
unconsumed budget on to the post-state. -/
theorem deliver_exit_budget (cfg : Config) (s : State) (d : Delivery) :
    countExitCalls (deliver cfg s d).2.1 +
      (match (deliver cfg s d).2.2 with
        | Outcome.terminated _ => 0
        | _ => exitBudget (deliver cfg s d).1) ≤ exitBudget s := by
  rcases s with ⟨e, c, w⟩
  cases d with
  | sigint ts =>
    cases e <;> cases c <;> cases w <;>
      cases hopt : cfg.exit_on_second_int <;>
      cases hcb : cfg.custom_exit_callback <;>
      cases hpb : cfg.pause_callback <;>
      simp [deliver, sigint_handler, handle_second_ctrl_c, exitBudget, hopt, hcb,
        hpb, countExitCalls_append, countExitCalls_cancel, countExitCalls_cons,
        countExitCalls_nil, callbackEffects]
  | sigterm =>
    cases e <;> cases hcb : cfg.custom_exit_callback <;>
      simp [deliver, sigterm_handler, exitBudget, hcb, countExitCalls_append,
        countExitCalls_cons, countExitCalls_nil, callbackEffects]
  | gate env =>
    cases e <;> cases hr : env.read <;>
      cases hid : env.install_default_raises <;>
      cases hrc : cfg.resume_callback <;>
      cases hcb : cfg.custom_exit_callback <;>
      cases hrest : env.restore_raises <;>
      simp [deliver, wait_for_resume, handle_second_ctrl_c, gateFinally,
        exitBudget, hr, hid, hrc, hcb, hrest, countExitCalls_append,
        countExitCalls_cons, countExitCalls_nil, callbackEffects]
  | hostReset =>
    cases e <;> simp [deliver, reset, exitBudget, countExitCalls_nil]

/-- A whole run consumes at most the initial exit budget. -/
theorem runDeliveries_le_budget (cfg : Config) (ds : List Delivery) :
    ∀ s, countExitCalls (runDeliveries cfg s ds) ≤ exitBudget s := by
  induction ds with
  | nil =>
    intro s
    simp [runDeliveries, countExitCalls_nil]
  | cons d ds ih =>
    intro s
    have hstep := deliver_exit_budget cfg s d
    unfold runDeliveries
    rcases ho : (deliver cfg s d).2.2 with _ | code | err <;>
      rw [ho] at hstep <;> dsimp only at hstep ⊢
    · rw [countExitCalls_append]
      exact le_trans (Nat.add_le_add_left (ih _) _) hstep
    · omega
    · rw [countExitCalls_append]
      exact le_trans (Nat.add_le_add_left (ih _) _) hstep

/-- C1: across every sequence of SIGINT and SIGTERM deliveries — in any
state, including a SIGINT surfacing as the `KeyboardInterrupt` of
`wait_for_resume`, and with host calls to `wait_for_resume` and `reset`
interleaved — the host exit callback (`custom_exit_callback`) is invoked at
most once: the process-wide `_exiting` flag is set before the callback is
invoked and checked at the top of every exit-capable handler. -/
theorem exit_callback_at_most_once (cfg : Config) (s : State)
    (ds : List Delivery) :
    countExitCalls (runDeliveries cfg s ds) ≤ 1 :=
  le_trans (runDeliveries_le_budget cfg ds s)
    (by unfold exitBudget; split <;> simp)

end BrowserUse
